import Mathlib

/-!
Shallow embedding of the `tower` repository's monitoring/classification
engine and command-routing pipeline, together with proofs of the
behavioural claims about it.

Conventions used throughout:
* Python floats (timestamps, confidences, durations) are embedded as `ℚ`.
* `time.time()` is passed explicitly as a `now : ℚ` argument; within one
  poll tick the several `time.time()` calls of the source are identified.
* The regular-expression engine (`re.search` with `IGNORECASE`) is an
  external library; it is abstracted as a matcher parameter
  `m : String → String → Bool` taking the pattern and the line.  All
  pattern lists and the loop structure around the matcher are embedded
  verbatim from the source.
* Python string primitives (`strip`, `split`, `lower`, `isdigit`, `in`,
  negative slices) are implemented structurally over `String.data` so
  that every definition evaluates inside the kernel.
* Python dictionaries keyed by user id are embedded as total functions
  with the source's `dict.get` default built in.
-/

namespace Tower

/-! ### Python string primitives -/

/-- Embeds Python `str.strip()`: drop whitespace from both ends. -/
def pyStrip (s : String) : String :=
  String.mk (((s.data.dropWhile Char.isWhitespace).reverse.dropWhile
    Char.isWhitespace).reverse)

/-- Splits a character list on a separator character; like Python
`str.split(sep)` this yields `[""]` on empty input and keeps empty
fields. -/
def splitOnChar (c : Char) (l : List Char) : List (List Char) :=
  l.foldr
    (fun ch acc =>
      match acc with
      | [] => [[ch]]
      | cur :: rest => if ch = c then [] :: cur :: rest else (ch :: cur) :: rest)
    [[]]

/-- Embeds Python `s.split("\n")`. -/
def pySplitNl (s : String) : List String :=
  (splitOnChar (Char.ofNat 10) s.data).map String.mk

/-- Embeds Python `str.lower()`. -/
def pyLower (s : String) : String :=
  String.mk (s.data.map Char.toLower)

/-- Embeds Python `str.isdigit()` (true iff nonempty and all digits). -/
def pyIsDigit (s : String) : Bool :=
  !s.data.isEmpty && s.data.all Char.isDigit

/-- Embeds the Python substring test `needle in hay`. -/
def pyContains (hay needle : String) : Bool :=
  hay.data.tails.any (fun t => needle.data.isPrefixOf t)

/-- Embeds the Python negative slice `s[-n:]` (last `n` characters). -/
def pyTakeLast (s : String) (n : ℕ) : String :=
  String.mk (s.data.drop (s.data.length - n))

/-- Embeds the Python slice `s[:n]` (first `n` characters). -/
def pyTakeFirst (s : String) (n : ℕ) : String :=
  String.mk (s.data.take n)

/-- Embeds Python `int(q / k)` for a rational `q` and positive integer
constant `k`: truncated-toward-zero division, computed on the fraction
directly. -/
def py_int_div (q : ℚ) (k : ℕ) : ℤ :=
  q.num.tdiv (q.den * k)

/-- Embeds Python `"\n".join(xs)`. -/
def pyJoinNl (xs : List String) : String :=
  String.intercalate "\n" xs

/-! ### `src/event_detector.py` — classifier -/

/-- Embeds `EventType` from `src/event_detector.py`. -/
inductive EventType where
  | ERROR
  | PERMISSION
  | STUCK
  | NORMAL
deriving DecidableEq, Repr

/-- Embeds the `DetectedEvent` dataclass from `src/event_detector.py`. -/
structure DetectedEvent where
  event_type : EventType
  raw_output : String
  key_lines : List String
  confidence : ℚ
  timestamp : ℚ
deriving DecidableEq, Repr

/-- Embeds `ERROR_PATTERNS` from `src/event_detector.py` (the regex source
strings; the regex engine itself is abstracted as a matcher parameter). -/
def ERROR_PATTERNS : List String :=
  ["FAILED",
   "Error:",
   "Traceback \\(most recent call last\\)",
   "error\\[E\\d+\\]",
   "npm ERR!",
   "exit code [1-9]",
   "Command failed"]

/-- Embeds `PERMISSION_PATTERNS` from `src/event_detector.py`. -/
def PERMISSION_PATTERNS : List String :=
  ["Do you want to",
   "Allow\\?",
   "Proceed\\?",
   "Continue\\?",
   "Are you sure",
   "\\[y/N\\]",
   "\\[Y/n\\]"]

/-- Embeds `STUCK_INDICATORS` from `src/event_detector.py` (defined in the
source but not consulted by `detect_event`). -/
def STUCK_INDICATORS : List String :=
  ["Waiting for.*response",
   "Connection timed out",
   "Rate limit exceeded",
   "Request failed",
   "retrying"]

/-- Embeds `output.strip().split("\n")` at the top of `detect_event`. -/
def event_lines (output : String) : List String :=
  pySplitNl (pyStrip output)

/-- Embeds the Python slice `lines[-10:]` used for the permission scan. -/
def recent_lines (lines : List String) : List String :=
  lines.drop (lines.length - 10)

/-- Embeds `detect_event` from `src/event_detector.py`.  The error loop
returns on the first pattern with any matching line, collecting up to five
stripped matching lines as evidence; the permission loop scans only the
last ten lines and returns on the very first matching line; otherwise the
text is Normal.  `m` is the abstracted `re.search(pattern, line,
IGNORECASE)`; `now` is `time.time()`. -/
def detect_event (m : String → String → Bool) (output : String) (now : ℚ) :
    DetectedEvent :=
  let lines := event_lines output
  match ERROR_PATTERNS.find? (fun p => lines.any (fun l => m p l)) with
  | some p =>
      { event_type := .ERROR
        raw_output := output
        key_lines := ((lines.filter (fun l => m p l)).map pyStrip).take 5
        confidence := 9/10
        timestamp := now }
  | none =>
      let recent := recent_lines lines
      match PERMISSION_PATTERNS.findSome?
          (fun p => recent.find? (fun l => m p l)) with
      | some l =>
          { event_type := .PERMISSION
            raw_output := output
            key_lines := [pyStrip l]
            confidence := 19/20
            timestamp := now }
      | none =>
          { event_type := .NORMAL
            raw_output := output
            key_lines := []
            confidence := 1
            timestamp := now }

/-! ### `src/event_detector.py` — `TmuxMonitor.check_once` -/

/-- Embeds the mutable fields of `TmuxMonitor` that `check_once` reads and
writes (`last_output`, `last_event_time`, `last_change_time`). -/
structure MonitorState where
  last_output : String
  last_event_time : ℚ
  last_change_time : ℚ
deriving DecidableEq, Repr

/-- Embeds `TmuxMonitor.debounce_seconds` (300 s). -/
def debounce_seconds : ℚ := 300

/-- Embeds `TmuxMonitor.stuck_threshold` (600 s). -/
def stuck_threshold : ℚ := 600

/-- The confidence the monitor stamps on a synthetic STUCK event (the
literal `0.8` in `TmuxMonitor.check_once`). -/
def stuck_confidence : ℚ := 4/5

/-- Embeds `TmuxMonitor.check_once` from `src/event_detector.py`.  The
captured pane text is passed in as `output` (the capture collaborator is
external and returns `""` on failure); `now` is `time.time()`.  Returns
the optionally emitted event together with the updated monitor state. -/
def check_once (m : String → String → Bool) (s : MonitorState)
    (output : String) (now : ℚ) : Option DetectedEvent × MonitorState :=
  if output ≠ s.last_output then
    let s1 : MonitorState :=
      { s with last_change_time := now, last_output := output }
    let event := detect_event m output now
    if event.event_type = .NORMAL then (none, s1)
    else if now - s.last_event_time < debounce_seconds then (none, s1)
    else (some event, { s1 with last_event_time := now })
  else
    let idle_time := now - s.last_change_time
    if idle_time > stuck_threshold then
      if now - s.last_event_time > debounce_seconds then
        let mins := py_int_div idle_time 60
        (some { event_type := .STUCK
                raw_output := output
                key_lines := [s!"No activity for {mins} minutes"]
                confidence := stuck_confidence
                timestamp := now },
         { s with last_event_time := now })
      else (none, s)
    else (none, s)

/-! ### `src/telegram_tower.py` — auth gate -/

/-- Embeds one value of the module-level `failed_auth_attempts` dict of
`src/telegram_tower.py` (`{"count": int, "lockout_until": float}`). -/
structure AuthAttempts where
  count : ℕ
  lockout_until : ℚ
deriving DecidableEq, Repr

/-- Embeds `MAX_AUTH_ATTEMPTS` (5) from `src/telegram_tower.py`. -/
def MAX_AUTH_ATTEMPTS : ℕ := 5

/-- Embeds `LOCKOUT_SECONDS` (300) from `src/telegram_tower.py`. -/
def LOCKOUT_SECONDS : ℚ := 300

/-- The `failed_auth_attempts` dict as a total map; a key that was never
written holds the default `{"count": 0, "lockout_until": 0}` that every
`dict.get` in the source supplies. -/
def AuthStore : Type := ℤ → AuthAttempts

/-- The store in which no user has any recorded failure (module start). -/
def empty_auth_store : AuthStore := fun _ => ⟨0, 0⟩

/-- Embeds `record_failed_auth` from `src/telegram_tower.py`: fetch the
user's entry (default `{0, 0}`), reset it when `time.time() >=
lockout_until`, increment the count, and set `lockout_until = now +
LOCKOUT_SECONDS` when the count reaches `MAX_AUTH_ATTEMPTS`. -/
def record_failed_auth (store : AuthStore) (user_id : ℤ) (now : ℚ) :
    AuthStore :=
  let attempts := store user_id
  let attempts := if now ≥ attempts.lockout_until then (⟨0, 0⟩ : AuthAttempts)
    else attempts
  let cnt := attempts.count + 1
  let attempts : AuthAttempts :=
    if cnt ≥ MAX_AUTH_ATTEMPTS then ⟨cnt, now + LOCKOUT_SECONDS⟩
    else ⟨cnt, attempts.lockout_until⟩
  fun u => if u = user_id then attempts else store u

/-- Embeds `check_rate_limit` from `src/telegram_tower.py`; returns the
`is_allowed` component (true unless `time.time() < lockout_until`). -/
def check_rate_limit (store : AuthStore) (user_id : ℤ) (now : ℚ) : Bool :=
  !(now < (store user_id).lockout_until)

/-- Embeds `clear_failed_auth` from `src/telegram_tower.py` (`dict.pop`
restores the absent-key default). -/
def clear_failed_auth (store : AuthStore) (user_id : ℤ) : AuthStore :=
  fun u => if u = user_id then ⟨0, 0⟩ else store u

/-! ### TOTP verification (`verify_totp` in `src/telegram_tower.py` and
`src/inbound_server.py`) -/

/-- Modelled from the spec: both `verify_totp` functions delegate to
`pyotp.TOTP(TOTP_SECRET).verify(code, valid_window=1)`, and the pyotp
library is external to this repository.  With `valid_window=1`, pyotp
compares the submitted code for equality against the TOTP values at the
previous, the current and the next time step.  The per-step code
`at_step : ℤ → String` (HMAC-based in pyotp) is kept abstract; `t` is the
current time step. -/
def verify_totp (at_step : ℤ → String) (t : ℤ) (code : String) : Bool :=
  code == at_step (t - 1) || code == at_step t || code == at_step (t + 1)

/-! ### `src/event_detector.py` — `HooksListener._parse_hook_event` -/

/-- Embeds the JSON payload fields that `_parse_hook_event` reads from
`hook_data`: `hook_event_name` (default `""`), `tool_name` (absent ↦
`"unknown"` via `.get`), `tool_input` (a dict — `none` models a missing or
non-dict value, for which the `isinstance` guard skips the detail lines),
and `notification_type` (default `""`). -/
structure HookData where
  hook_event_name : String
  tool_name : Option String
  tool_input : Option (List (String × String))
  notification_type : Option String
deriving DecidableEq, Repr

/-- Looks a key up in an embedded JSON object (Python `key in dict` /
`dict[key]`). -/
def dictGet (d : List (String × String)) (key : String) : Option String :=
  (d.find? (fun kv => kv.fst == key)).map Prod.snd

/-- Embeds `HooksListener._parse_hook_event` from
`src/event_detector.py`.  `raw` stands for `json.dumps(hook_data,
indent=2)` (serialization of the payload, external); `now` is
`time.time()`.  Only `PermissionRequest` and
`Notification`/`permission_prompt` payloads produce an event, always with
confidence 1.0; anything else yields `none`. -/
def parse_hook_event (raw : String) (now : ℚ) (h : HookData) :
    Option DetectedEvent :=
  let event_name := h.hook_event_name
  if event_name = "PermissionRequest" then
    let tool_name := h.tool_name.getD "unknown"
    let key_lines := [s!"Permission requested for: {tool_name}"]
    let key_lines :=
      match h.tool_input with
      | some ti =>
          let key_lines :=
            match dictGet ti "command" with
            | some c => key_lines ++ [s!"Command: {pyTakeFirst c 100}"]
            | none => key_lines
          match dictGet ti "file_path" with
          | some f => key_lines ++ [s!"File: {f}"]
          | none => key_lines
      | none => key_lines
    some { event_type := .PERMISSION
           raw_output := raw
           key_lines := key_lines
           confidence := 1
           timestamp := now }
  else if event_name = "Notification" then
    if h.notification_type.getD "" = "permission_prompt" then
      some { event_type := .PERMISSION
             raw_output := raw
             key_lines := ["Permission prompt notification"]
             confidence := 1
             timestamp := now }
    else none
  else none

/-! ### `src/summarizer.py` -/

/-- Embeds the `SummaryOption` dataclass from `src/summarizer.py`. -/
structure SummaryOption where
  key : String
  label : String
  instruction : String
deriving DecidableEq, Repr

/-- Embeds the `Summary` dataclass from `src/summarizer.py`. -/
structure Summary where
  speech_text : String
  options : List SummaryOption
  context_snippet : String
deriving DecidableEq, Repr

/-- One entry of the `"options"` array of the parsed LLM JSON, already
coerced to strings as the source's `str(opt.get(..., ""))` does. -/
structure RawOption where
  key : String
  label : String
  instruction : String
deriving DecidableEq, Repr

/-- The parsed LLM JSON object as `Summarizer._parse_response` reads it:
`data.get("speech", ...)` and `data.get("options", [])`. -/
structure ParsedData where
  speech : Option String
  options : List RawOption
deriving DecidableEq, Repr

/-- Embeds the validation loop of `Summarizer._parse_response`: keep an
option iff its key is a single digit and its label and instruction are
nonempty. -/
def validated_options (raw : List RawOption) : List SummaryOption :=
  raw.filterMap (fun o =>
    if !pyIsDigit o.key || o.key.data.length ≠ 1 then none
    else if o.label = "" || o.instruction = "" then none
    else some ⟨o.key, o.label, o.instruction⟩)

/-- Embeds the tail of `Summarizer._parse_response`: append the canonical
stop option unless some validated option already has key `"9"`. -/
def build_options (raw : List RawOption) : List SummaryOption :=
  let options := validated_options raw
  if options.any (fun o => o.key == "9") then options
  else options ++ [⟨"9", "stop everything", "Stop immediately and wait for me"⟩]

/-- Embeds `Summarizer._parse_response` from `src/summarizer.py` after
`_extract_json` (JSON decoding is external; `data = none` models its
failure on all three attempts). -/
def parse_response (data : Option ParsedData) (event : DetectedEvent) :
    Summary :=
  match data with
  | none =>
      { speech_text :=
          "Claude Code needs your attention but I couldn't parse the details."
        options :=
          [⟨"1", "continue", "Continue with the current task"⟩,
           ⟨"2", "stop", "Stop and wait for me"⟩]
        context_snippet := pyTakeLast event.raw_output 500 }
  | some d =>
      { speech_text := d.speech.getD "Claude Code needs attention."
        options := build_options d.options
        context_snippet := pyJoinNl event.key_lines }

/-- Embeds `Summarizer._basic_summary` from `src/summarizer.py` (the
no-LLM fallback path of `summarize`). -/
def basic_summary (event : DetectedEvent) : Summary :=
  let msg :=
    match event.event_type with
    | .ERROR => "Error detected in Claude Code session."
    | .PERMISSION => "Claude Code is waiting for permission."
    | .STUCK => "Claude Code session appears stuck."
    | .NORMAL => "Claude Code session update."
  { speech_text := msg
    options :=
      [⟨"1", "approve", "yes"⟩,
       ⟨"2", "retry", "retry"⟩,
       ⟨"9", "stop", "Stop and wait for me"⟩]
    context_snippet := pyJoinNl event.key_lines }

/-- The two stop instructions that occur in `src/summarizer.py` (in
`_basic_summary` / the unparseable-response fallback, and in the option
appended by `_parse_response`). -/
def stop_instructions : List String :=
  ["Stop and wait for me", "Stop immediately and wait for me"]

/-! ### `src/telegram_tower.py` — reply routing (`handle_message`) -/

/-- The observable outcome of the authenticated branch of
`handle_message` in `src/telegram_tower.py` (which Telegram reply is sent
and whether an instruction is dispatched to a tmux session). -/
inductive RouteResult where
  | statusReport
  | sessionDetail (n : ℕ)
  | sent (session_num : ℕ) (instruction : String)
  | noSuchSession (n : ℕ)
  | noWaiting
  | didntCatch
deriving DecidableEq, Repr

/-- Embeds `send_to_session` from `src/telegram_tower.py` (the tmux
injection itself is external; range checking and the dispatched
instruction are what matter here). -/
def send_to_session (num_sessions : ℕ) (session_num : ℕ)
    (instruction : String) : RouteResult :=
  if session_num < 1 ∨ session_num > num_sessions then
    .noSuchSession session_num
  else .sent session_num instruction

/-- Embeds the status-shortcut vocabulary of `handle_message`. -/
def STATUS_WORDS : List String := ["status", "s", "sitrep", "?"]

/-- Embeds the quick-approve vocabulary of `handle_message`. -/
def AFFIRMATIVE_WORDS : List String := ["approve", "yes", "y", "ok", "go"]

/-- Embeds the waiting-keyword scan of the quick-approve fallback in
`handle_message`. -/
def WAITING_KEYWORDS : List String := ["waiting", "approve", "confirm", "y/n"]

/-- Embeds the direct-command parse `"1: do something"` / `"1 do
something"` of `handle_message`: split once on `":"` when present,
otherwise once on a space. -/
def split_direct (text : String) : List String :=
  if pyContains text ":" then
    match text.data.span (fun c => c ≠ Char.ofNat 58) with
    | (pre, _ :: post) => [String.mk pre, String.mk post]
    | (pre, []) => [String.mk pre]
  else
    match text.data.span (fun c => c ≠ Char.ofNat 32) with
    | (pre, _ :: post) => [String.mk pre, String.mk post]
    | (pre, []) => [String.mk pre]

/-- Embeds the authenticated command-processing tail of `handle_message`
in `src/telegram_tower.py` (from `text_lower = text.lower()` on).  The
pane captures of the fallback scan are supplied by `captures : ℕ →
String` (session numbers are 1-based); `last_perm` is the module global
`last_permission_session`.  Returns the outcome together with the updated
`last_permission_session`. -/
def handle_auth_message (num_sessions : ℕ) (captures : ℕ → String)
    (last_perm : Option ℕ) (text : String) : RouteResult × Option ℕ :=
  let text_lower := pyLower text
  if STATUS_WORDS.contains text_lower then (.statusReport, last_perm)
  else if pyIsDigit text ∧ text.data.length ≤ 2 then
    (.sessionDetail text.toNat!, last_perm)
  else if AFFIRMATIVE_WORDS.contains text_lower then
    match last_perm with
    | some session_num =>
        if 1 ≤ session_num ∧ session_num ≤ num_sessions then
          (send_to_session num_sessions session_num "yes", none)
        else
          match (List.range' 1 num_sessions).find?
              (fun i => WAITING_KEYWORDS.any
                (fun kw => pyContains (pyLower (captures i)) kw)) with
          | some i => (send_to_session num_sessions i "yes", last_perm)
          | none => (.noWaiting, last_perm)
    | none =>
        match (List.range' 1 num_sessions).find?
            (fun i => WAITING_KEYWORDS.any
              (fun kw => pyContains (pyLower (captures i)) kw)) with
        | some i => (send_to_session num_sessions i "yes", last_perm)
        | none => (.noWaiting, last_perm)
  else if (text.data.headD (Char.ofNat 32)).isDigit then
    match split_direct text with
    | [a, b] =>
        let a := pyStrip a
        let b := pyStrip b
        if pyIsDigit a ∧ b ≠ "" then
          (send_to_session num_sessions a.toNat! b, last_perm)
        else (.didntCatch, last_perm)
    | _ => (.didntCatch, last_perm)
  else (.didntCatch, last_perm)

/-- Embeds the `last_permission_session` tracking at the top of
`TelegramAlerter.on_event` in `src/telegram_tower.py`: a PERMISSION event
records its session number, any other event leaves the memory alone. -/
def on_event_track (last_perm : Option ℕ) (session_num : ℕ)
    (event : DetectedEvent) : Option ℕ :=
  if event.event_type = .PERMISSION then some session_num else last_perm

/-- A concrete instance of the abstracted `re.search`, used to instantiate
universally quantified matchers at concrete inputs: the pattern matches a
line iff they are equal. -/
def eqMatcher : String → String → Bool := fun p l => l == p

/-! ### Helper lemmas -/

/-- The classifier stamps 9/10 on ERROR results, 19/20 on PERMISSION
results, 1 on NORMAL results, and never returns STUCK. -/
lemma detect_event_confidence_spec (m : String → String → Bool)
    (output : String) (now : ℚ) :
    ((detect_event m output now).event_type = .ERROR →
      (detect_event m output now).confidence = 9/10) ∧
    ((detect_event m output now).event_type = .PERMISSION →
      (detect_event m output now).confidence = 19/20) ∧
    ((detect_event m output now).event_type = .NORMAL →
      (detect_event m output now).confidence = 1) ∧
    (detect_event m output now).event_type ≠ .STUCK := by
  rcases hfe : ERROR_PATTERNS.find?
      (fun p => (event_lines output).any (fun l => m p l)) with _ | p
  · rcases hfp : PERMISSION_PATTERNS.findSome?
        (fun p => (recent_lines (event_lines output)).find? (fun l => m p l))
        with _ | l
    · simp [detect_event, hfe, hfp]
    · simp [detect_event, hfe, hfp]
  · simp [detect_event, hfe]

/-- Any event emitted on the unchanged-output branch of `check_once` is
STUCK with confidence `stuck_confidence`, and any event emitted on the
changed-output branch is a classifier result (hence never STUCK). -/
lemma check_once_stuck_confidence (m : String → String → Bool)
    (s : MonitorState) (output : String) (now : ℚ) (e : DetectedEvent)
    (s2 : MonitorState)
    (hS : check_once m s output now = (some e, s2))
    (hSt : e.event_type = .STUCK) :
    e.confidence = stuck_confidence := by
  simp only [check_once] at hS
  split_ifs at hS with h1 h2 h3 h4 h5
  · exact absurd hS (by simp)
  · exact absurd hS (by simp)
  · obtain ⟨he, -⟩ := Prod.mk.inj hS
    obtain rfl : detect_event m output now = e := Option.some.inj he
    exact absurd hSt (detect_event_confidence_spec m output now).2.2.2
  · obtain ⟨he, -⟩ := Prod.mk.inj hS
    obtain rfl := Option.some.inj he
    rfl
  · exact absurd hS (by simp)
  · exact absurd hS (by simp)

/-- C1: for every raw text input the classifier assigns a static per-kind
confidence: 19/20 to a Permission event, 9/10 to an Error event, and the
monitor stamps `stuck_confidence = 4/5` on a Stalled event; these are
ordered Stalled < Error < Permission. -/
theorem c1_confidence_constants_ordered
    (m m2 : String → String → Bool) (o1 o2 : String) (t1 t2 : ℚ)
    (st : MonitorState) (out : String) (now : ℚ)
    (e : DetectedEvent) (st2 : MonitorState)
    (hP : (detect_event m o1 t1).event_type = .PERMISSION)
    (hE : (detect_event m o2 t2).event_type = .ERROR)
    (hS : check_once m2 st out now = (some e, st2))
    (hSt : e.event_type = .STUCK) :
    (detect_event m o1 t1).confidence = 19/20 ∧
    (detect_event m o2 t2).confidence = 9/10 ∧
    e.confidence = stuck_confidence ∧
    (detect_event m o2 t2).confidence < (detect_event m o1 t1).confidence ∧
    e.confidence < (detect_event m o2 t2).confidence ∧
    e.confidence < (detect_event m o1 t1).confidence := by
  have h1 := (detect_event_confidence_spec m o1 t1).2.1 hP
  have h2 := (detect_event_confidence_spec m o2 t2).1 hE
  have h3 := check_once_stuck_confidence m2 st out now e st2 hS hSt
  refine ⟨h1, h2, h3, ?_, ?_, ?_⟩ <;> simp only [h1, h2, h3] <;>
    norm_num [stuck_confidence]

/-- Witness for C1 at concrete inputs: "Do you want to" classifies as
PERMISSION, "FAILED" classifies as ERROR, and an unchanged pane idle for
1000 s emits a STUCK event; the three confidences are ordered as
claimed. -/
theorem c1_confidence_constants_ordered_witness :
    (detect_event eqMatcher "Do you want to" 0).event_type = .PERMISSION ∧
    (detect_event eqMatcher "FAILED" 0).event_type = .ERROR ∧
    (∃ e st2, check_once eqMatcher ⟨"x", 0, 0⟩ "x" 1000 = (some e, st2) ∧
      e.event_type = .STUCK ∧
      e.confidence < (detect_event eqMatcher "FAILED" 0).confidence ∧
      e.confidence < (detect_event eqMatcher "Do you want to" 0).confidence ∧
      (detect_event eqMatcher "FAILED" 0).confidence <
        (detect_event eqMatcher "Do you want to" 0).confidence) := by
  refine ⟨by decide, by decide, ⟨.STUCK, "x", ["No activity for 16 minutes"],
    stuck_confidence, 1000⟩, ⟨"x", 1000, 0⟩, ?_, ?_⟩
  · norm_num [check_once, debounce_seconds, stuck_threshold]
    decide
  · have h := c1_confidence_constants_ordered eqMatcher eqMatcher
      "Do you want to" "FAILED" 0 0 ⟨"x", 0, 0⟩ "x" 1000
      ⟨.STUCK, "x", ["No activity for 16 minutes"], stuck_confidence, 1000⟩
      ⟨"x", 1000, 0⟩ (by decide) (by decide)
      (by norm_num [check_once, debounce_seconds, stuck_threshold]; decide)
      (by decide)
    exact ⟨rfl, h.2.2.2.2.1, h.2.2.2.2.2, h.2.2.2.1⟩

/-- C6: when no Error pattern matches any line and no Permission pattern
matches any of the last 10 lines (so every Permission match, if any, lies
outside them), the classifier returns NORMAL — in particular not
PERMISSION. -/
theorem c6_permission_recency
    (m : String → String → Bool) (output : String) (now : ℚ)
    (hE : ERROR_PATTERNS.all
      (fun p => (event_lines output).all (fun l => !m p l)) = true)
    (hP : PERMISSION_PATTERNS.all
      (fun p => (recent_lines (event_lines output)).all (fun l => !m p l))
        = true) :
    (detect_event m output now).event_type = .NORMAL := by
  have hE' : ∀ p ∈ ERROR_PATTERNS, ∀ l ∈ event_lines output, m p l = false := by
    intro p hp l hl
    have h1 := List.all_eq_true.mp hE p hp
    exact (show ∀ x ∈ event_lines output, m p x = false by simpa using h1) l hl
  have hP' : ∀ p ∈ PERMISSION_PATTERNS,
      ∀ l ∈ recent_lines (event_lines output), m p l = false := by
    intro p hp l hl
    have h1 := List.all_eq_true.mp hP p hp
    exact (show ∀ x ∈ recent_lines (event_lines output), m p x = false by
      simpa using h1) l hl
  have hfe : ERROR_PATTERNS.find?
      (fun p => (event_lines output).any (fun l => m p l)) = none := by
    rw [List.find?_eq_none]
    intro p hp
    simp only [Bool.not_eq_true, List.any_eq_false]
    intro l hl
    simp [hE' p hp l hl]
  have hfp : PERMISSION_PATTERNS.findSome?
      (fun p => (recent_lines (event_lines output)).find? (fun l => m p l))
        = none := by
    rw [List.findSome?_eq_none_iff]
    intro p hp
    rw [List.find?_eq_none]
    intro l hl
    simp [hP' p hp l hl]
  simp [detect_event, hfe, hfp]

/-- Witness for C6: with the equality matcher, the text "hello\nworld"
matches no pattern anywhere, and the classifier returns NORMAL. -/
theorem c6_permission_recency_witness :
    ERROR_PATTERNS.all
      (fun p => (event_lines "hello\nworld").all (fun l => !eqMatcher p l))
        = true ∧
    PERMISSION_PATTERNS.all
      (fun p => (recent_lines (event_lines "hello\nworld")).all
        (fun l => !eqMatcher p l)) = true ∧
    (detect_event eqMatcher "hello\nworld" 0).event_type = .NORMAL :=
  ⟨by decide, by decide,
    c6_permission_recency eqMatcher "hello\nworld" 0 (by decide) (by decide)⟩

/-- C2 (code bug): five consecutive failed verifications for user 7 at
wall-clock times 100..104 leave the stored count at 1 and `lockout_until`
at 0, and the user is still allowed — the threshold is never reached
because `record_failed_auth` resets the entry whenever `time.time() >=
lockout_until`, which is always true while `lockout_until` is the default
0.  A distinct user 8 is untouched. -/
theorem c2_lockout_never_triggers :
    record_failed_auth (record_failed_auth (record_failed_auth
      (record_failed_auth (record_failed_auth empty_auth_store 7 100)
        7 101) 7 102) 7 103) 7 104 7 = ⟨1, 0⟩ ∧
    record_failed_auth (record_failed_auth (record_failed_auth
      (record_failed_auth (record_failed_auth empty_auth_store 7 100)
        7 101) 7 102) 7 103) 7 104 8 = ⟨0, 0⟩ ∧
    check_rate_limit (record_failed_auth (record_failed_auth
      (record_failed_auth (record_failed_auth (record_failed_auth
        empty_auth_store 7 100) 7 101) 7 102) 7 103) 7 104) 7 104
      = true := by
  decide

/-- C3: a non-Normal change is emitted exactly when `now -
last_event_time ≥ debounce_seconds`, and a second non-Normal change
within the debounce window is suppressed while still updating the stored
captured text; hence two escalation-worthy changes within the window
yield exactly one emitted event.  The final conjunct is the general
emit-iff-window condition for any changed non-Normal tick. -/
theorem c3_debounce_exactly_once
    (m : String → String → Bool) (s : MonitorState) (o o2 : String)
    (now t2 : ℚ)
    (hch : o ≠ s.last_output)
    (hnn : (detect_event m o now).event_type ≠ .NORMAL)
    (hch2 : o2 ≠ o)
    (hnn2 : (detect_event m o2 t2).event_type ≠ .NORMAL)
    (hemit : debounce_seconds ≤ now - s.last_event_time)
    (hwin : t2 - now < debounce_seconds)
    (s3 : MonitorState) (o3 : String) (t3 : ℚ)
    (hch3 : o3 ≠ s3.last_output)
    (hnn3 : (detect_event m o3 t3).event_type ≠ .NORMAL) :
    (check_once m s o now).1 = some (detect_event m o now) ∧
    (check_once m s o now).2 = ⟨o, now, now⟩ ∧
    (check_once m (check_once m s o now).2 o2 t2).1 = none ∧
    (check_once m (check_once m s o now).2 o2 t2).2 = ⟨o2, now, t2⟩ ∧
    ((check_once m s3 o3 t3).1 ≠ none ↔
      debounce_seconds ≤ t3 - s3.last_event_time) ∧
    (check_once m s3 o3 t3).2.last_output = o3 := by
  have hfirst : check_once m s o now =
      (some (detect_event m o now), ⟨o, now, now⟩) := by
    simp only [check_once]
    rw [if_pos hch, if_neg hnn, if_neg (not_lt.mpr hemit)]
  have hsecond : check_once m (⟨o, now, now⟩ : MonitorState) o2 t2 =
      (none, ⟨o2, now, t2⟩) := by
    simp only [check_once]
    rw [if_pos (show o2 ≠ (⟨o, now, now⟩ : MonitorState).last_output
        from hch2), if_neg hnn2, if_pos (show t2 -
        (⟨o, now, now⟩ : MonitorState).last_event_time < debounce_seconds
        from hwin)]
  refine ⟨by rw [hfirst], by rw [hfirst], by rw [hfirst, hsecond],
    by rw [hfirst, hsecond], ?_, ?_⟩
  · by_cases hd : t3 - s3.last_event_time < debounce_seconds
    · have : check_once m s3 o3 t3 =
          (none, ⟨o3, s3.last_event_time, t3⟩) := by
        simp only [check_once]
        rw [if_pos hch3, if_neg hnn3, if_pos hd]
      simp [this, not_lt.mp, hd, not_le.mpr hd]
    · have : check_once m s3 o3 t3 = (some (detect_event m o3 t3),
          ⟨o3, t3, t3⟩) := by
        simp only [check_once]
        rw [if_pos hch3, if_neg hnn3, if_neg hd]
      simp [this, not_lt.mp hd]
  · by_cases hd : t3 - s3.last_event_time < debounce_seconds
    · have : check_once m s3 o3 t3 =
          (none, ⟨o3, s3.last_event_time, t3⟩) := by
        simp only [check_once]
        rw [if_pos hch3, if_neg hnn3, if_pos hd]
      rw [this]
    · have : check_once m s3 o3 t3 = (some (detect_event m o3 t3),
          ⟨o3, t3, t3⟩) := by
        simp only [check_once]
        rw [if_pos hch3, if_neg hnn3, if_neg hd]
      rw [this]

/-- Witness for C3 at concrete inputs: from a fresh-but-due state, the
change to "FAILED" at t=300 emits, the change to "Error:" at t=400 is
suppressed with the captured text still updated, and a change against a
recently escalated state (t=500 vs. escalation at 400) is not emitted. -/
theorem c3_debounce_exactly_once_witness :
    (check_once eqMatcher ⟨"", 0, 0⟩ "FAILED" 300).1 =
      some (detect_event eqMatcher "FAILED" 300) ∧
    (check_once eqMatcher ⟨"", 0, 0⟩ "FAILED" 300).2 = ⟨"FAILED", 300, 300⟩ ∧
    (check_once eqMatcher (check_once eqMatcher ⟨"", 0, 0⟩ "FAILED" 300).2
      "Error:" 400).1 = none ∧
    (check_once eqMatcher (check_once eqMatcher ⟨"", 0, 0⟩ "FAILED" 300).2
      "Error:" 400).2 = ⟨"Error:", 300, 400⟩ ∧
    ((check_once eqMatcher ⟨"", 400, 0⟩ "FAILED" 500).1 ≠ none ↔
      debounce_seconds ≤ (500 : ℚ) - (400 : ℚ)) ∧
    (check_once eqMatcher ⟨"", 400, 0⟩ "FAILED" 500).2.last_output
      = "FAILED" :=
  c3_debounce_exactly_once eqMatcher ⟨"", 0, 0⟩ "FAILED" "Error:" 300 400
    (by decide) (by decide) (by decide) (by decide)
    (by norm_num [debounce_seconds]) (by norm_num [debounce_seconds])
    ⟨"", 400, 0⟩ "FAILED" 500 (by decide) (by decide)

/-- C4: on an unchanged tick a synthetic Stalled event is emitted iff the
idle time exceeds `stuck_threshold` and the time since the last emission
exceeds `debounce_seconds` (final iff conjunct); when it is emitted,
`last_event_time` advances to `now`, so a subsequent still-unchanged tick
within the debounce window emits nothing. -/
theorem c4_stall_once_per_window
    (m : String → String → Bool) (s : MonitorState) (o : String)
    (now t2 : ℚ)
    (hunch : o = s.last_output)
    (hidle : stuck_threshold < now - s.last_change_time)
    (hdeb : debounce_seconds < now - s.last_event_time)
    (hwin : ¬ debounce_seconds < t2 - now)
    (s3 : MonitorState) (o3 : String) (t3 : ℚ)
    (hunch3 : o3 = s3.last_output) :
    (check_once m s o now).1.map DetectedEvent.event_type = some .STUCK ∧
    (check_once m s o now).2 =
      ⟨s.last_output, now, s.last_change_time⟩ ∧
    (check_once m (check_once m s o now).2 o t2).1 = none ∧
    ((check_once m s3 o3 t3).1 ≠ none ↔
      stuck_threshold < t3 - s3.last_change_time ∧
      debounce_seconds < t3 - s3.last_event_time) := by
  have hfirst : check_once m s o now =
      (some { event_type := .STUCK
              raw_output := o
              key_lines :=
                [s!"No activity for {py_int_div (now - s.last_change_time) 60} minutes"]
              confidence := stuck_confidence
              timestamp := now },
       ⟨s.last_output, now, s.last_change_time⟩) := by
    simp only [check_once]
    rw [if_neg (by simp [hunch]), if_pos hidle, if_pos hdeb]
  have hsecond : check_once m
      (⟨s.last_output, now, s.last_change_time⟩ : MonitorState) o t2 =
      (none, ⟨s.last_output, now, s.last_change_time⟩) := by
    simp only [check_once]
    rw [if_neg (by simp [hunch])]
    by_cases h2 : stuck_threshold < t2 - s.last_change_time
    · rw [if_pos h2, if_neg (show ¬ debounce_seconds < t2 - now from hwin)]
    · rw [if_neg h2]
  refine ⟨by rw [hfirst]; rfl, by rw [hfirst], by rw [hfirst, hsecond], ?_⟩
  by_cases h3 : stuck_threshold < t3 - s3.last_change_time
  · by_cases h4 : debounce_seconds < t3 - s3.last_event_time
    · have hne : (check_once m s3 o3 t3).1 ≠ none := by
        simp only [check_once]
        rw [if_neg (by simp [hunch3]), if_pos h3, if_pos h4]
        simp
      simp [hne, h3, h4]
    · have hn : (check_once m s3 o3 t3).1 = none := by
        simp only [check_once]
        rw [if_neg (by simp [hunch3]), if_pos h3, if_neg h4]
      simp [hn, h4]
  · have hn : (check_once m s3 o3 t3).1 = none := by
      simp only [check_once]
      rw [if_neg (by simp [hunch3]), if_neg h3]
    simp [hn, h3]

/-- Witness for C4 at concrete inputs: a pane unchanged since t=0 checked
at t=1000 (idle 1000 > 600, debounce 1000 > 300) emits one STUCK event;
rechecked unchanged at t=1200 (only 200 s after the emission) it emits
nothing; and a fresh unchanged tick at t=0 satisfies the emit-iff
condition vacuously. -/
theorem c4_stall_once_per_window_witness :
    (check_once eqMatcher ⟨"x", 0, 0⟩ "x" 1000).1.map
      DetectedEvent.event_type = some .STUCK ∧
    (check_once eqMatcher ⟨"x", 0, 0⟩ "x" 1000).2 = ⟨"x", 1000, 0⟩ ∧
    (check_once eqMatcher (check_once eqMatcher ⟨"x", 0, 0⟩ "x" 1000).2
      "x" 1200).1 = none ∧
    ((check_once eqMatcher ⟨"y", 0, 0⟩ "y" 0).1 ≠ none ↔
      stuck_threshold < (0 : ℚ) - (0 : ℚ) ∧
      debounce_seconds < (0 : ℚ) - (0 : ℚ)) :=
  c4_stall_once_per_window eqMatcher ⟨"x", 0, 0⟩ "x" 1000 1200 rfl
    (by norm_num [stuck_threshold]) (by norm_num [debounce_seconds])
    (by norm_num [debounce_seconds]) ⟨"y", 0, 0⟩ "y" 0 rfl

/-- C5: after a Permission event from session `n` is recorded by
`on_event`, an authenticated affirmative reply routes "yes" to session `n`
and clears `last_permission_session`; a second affirmative reply (with no
new Permission event, and no pane showing a waiting prompt for the
fallback scan) finds no match and dispatches nothing. -/
theorem c5_affirmative_consumed_once
    (num_sessions : ℕ) (captures : ℕ → String) (lp : Option ℕ) (n : ℕ)
    (e : DetectedEvent) (text : String)
    (hperm : e.event_type = .PERMISSION)
    (haff : AFFIRMATIVE_WORDS.contains (pyLower text) = true)
    (hnd : pyIsDigit text = false)
    (hlo : 1 ≤ n) (hhi : n ≤ num_sessions)
    (hnowait : (List.range' 1 num_sessions).all
      (fun i => !WAITING_KEYWORDS.any
        (fun kw => pyContains (pyLower (captures i)) kw)) = true) :
    on_event_track lp n e = some n ∧
    handle_auth_message num_sessions captures (on_event_track lp n e) text
      = (.sent n "yes", none) ∧
    handle_auth_message num_sessions captures
      (handle_auth_message num_sessions captures (on_event_track lp n e)
        text).2 text = (.noWaiting, none) := by
  have htrack : on_event_track lp n e = some n := by
    simp [on_event_track, hperm]
  have hstatus : STATUS_WORDS.contains (pyLower text) = false := by
    have hmem : pyLower text = "approve" ∨ pyLower text = "yes" ∨
        pyLower text = "y" ∨ pyLower text = "ok" ∨ pyLower text = "go" := by
      simpa [AFFIRMATIVE_WORDS] using List.mem_of_elem_eq_true haff
    rcases hmem with h | h | h | h | h <;> rw [h] <;> decide
  have hscan : (List.range' 1 num_sessions).find?
      (fun i => WAITING_KEYWORDS.any
        (fun kw => pyContains (pyLower (captures i)) kw)) = none := by
    rw [List.find?_eq_none]
    intro i hi
    have h1 := List.all_eq_true.mp hnowait i hi
    simpa using h1
  have hfirst : handle_auth_message num_sessions captures (some n) text
      = (.sent n "yes", none) := by
    simp only [handle_auth_message, hstatus, haff, hnd, Bool.false_eq_true,
      if_false, false_and, if_true]
    rw [if_pos ⟨hlo, hhi⟩]
    simp [send_to_session, Nat.not_lt.mpr hlo, Nat.not_lt.mpr hhi,
      not_lt_of_le hhi]
  have hsecond : handle_auth_message num_sessions captures none text
      = (.noWaiting, none) := by
    simp only [handle_auth_message, hstatus, haff, hnd, Bool.false_eq_true,
      if_false, false_and, if_true, hscan]
  refine ⟨htrack, by rw [htrack, hfirst], ?_⟩
  rw [htrack, hfirst]
  exact hsecond

/-- Witness for C5 at concrete inputs: two sessions with blank panes, a
Permission event from session 1, reply "yes": the first reply dispatches
"yes" to session 1 and clears the memory; the second finds no match. -/
theorem c5_affirmative_consumed_once_witness :
    on_event_track none 1 ⟨.PERMISSION, "", [], 1, 0⟩ = some 1 ∧
    handle_auth_message 2 (fun _ => "")
      (on_event_track none 1 ⟨.PERMISSION, "", [], 1, 0⟩) "yes"
      = (.sent 1 "yes", none) ∧
    handle_auth_message 2 (fun _ => "")
      (handle_auth_message 2 (fun _ => "")
        (on_event_track none 1 ⟨.PERMISSION, "", [], 1, 0⟩) "yes").2 "yes"
      = (.noWaiting, none) :=
  c5_affirmative_consumed_once 2 (fun _ => "") none 1
    ⟨.PERMISSION, "", [], 1, 0⟩ "yes" (by decide) (by decide) (by decide)
    (by decide) (by decide) (by decide)

/-- C7: TOTP verification with one window of allowed drift accepts a code
iff it equals the code of the current step or of a step at distance one,
and therefore rejects any code valid only at distance two or more. -/
theorem c7_totp_drift_window (at_step : ℤ → String) (t : ℤ)
    (code : String) :
    verify_totp at_step t code = true ↔
      ∃ d : ℤ, d.natAbs ≤ 1 ∧ code = at_step (t + d) := by
  constructor
  · intro h
    rcases Bool.or_eq_true_iff.mp h with h' | h'
    · rcases Bool.or_eq_true_iff.mp h' with h'' | h''
      · exact ⟨-1, by decide, by simpa [sub_eq_add_neg] using eq_of_beq h''⟩
      · exact ⟨0, by decide, by simpa using eq_of_beq h''⟩
    · exact ⟨1, by decide, eq_of_beq h'⟩
  · rintro ⟨d, hd, rfl⟩
    have : d = -1 ∨ d = 0 ∨ d = 1 := by omega
    rcases this with rfl | rfl | rfl <;>
      simp [verify_totp, sub_eq_add_neg]

/-- C8: a pushed hook payload produces an event iff its kind is
`PermissionRequest` or a `Notification` with `notification_type`
`permission_prompt`; every produced event is a PERMISSION event with
confidence exactly 1; every other payload is dropped (no event, and
totality of the parse function models that no error is raised). -/
theorem c8_hook_vocabulary (raw : String) (now : ℚ) (h : HookData) :
    ((parse_hook_event raw now h).isSome = true ↔
      (h.hook_event_name = "PermissionRequest" ∨
        (h.hook_event_name = "Notification" ∧
          h.notification_type.getD "" = "permission_prompt"))) ∧
    (parse_hook_event raw now h).all
      (fun e => e.confidence == 1 && e.event_type == .PERMISSION) = true := by
  by_cases h1 : h.hook_event_name = "PermissionRequest"
  · constructor
    · simp [parse_hook_event, h1]
    · simp only [parse_hook_event, h1, if_pos, if_true]
      rcases h.tool_input with _ | ti
      · simp
      · rcases dictGet ti "command" with _ | c <;>
          rcases dictGet ti "file_path" with _ | f <;> simp
  · by_cases h2 : h.hook_event_name = "Notification"
    · by_cases h3 : h.notification_type.getD "" = "permission_prompt"
      · simp [parse_hook_event, h1, h2, h3]
      · simp [parse_hook_event, h1, h2, h3]
    · simp [parse_hook_event, h1, h2]

/-- Filtering raw options through a key-preserving partial map yields a
key list that is a sublist of the raw key list. -/
lemma filterMap_keys_sublist (f : RawOption → Option SummaryOption)
    (hf : ∀ o b, f o = some b → b.key = o.key) (l : List RawOption) :
    ((l.filterMap f).map SummaryOption.key).Sublist
      (l.map RawOption.key) := by
  induction l with
  | nil => simp
  | cons o rest ih =>
      rw [List.filterMap_cons]
      cases hfo : f o with
      | none => simpa using ih.cons o.key
      | some b =>
          simp only [List.map_cons]
          rw [hf o b hfo]
          exact ih.cons₂ o.key

/-- The keys of the validated options form a sublist of the keys of the
raw parsed options (validation only drops entries, preserving keys). -/
lemma validated_options_keys_sublist (raw : List RawOption) :
    ((validated_options raw).map SummaryOption.key).Sublist
      (raw.map RawOption.key) := by
  refine filterMap_keys_sublist _ ?_ raw
  intro o b h
  split_ifs at h
  exact (Option.some.inj h) ▸ rfl

/-- C9 counterexample: an LLM response whose options list repeats the key
"1" yields an escalation whose offered selectors are NOT pairwise
distinct — `_parse_response` never deduplicates keys. -/
theorem c9_counterexample_duplicate_selectors :
    ¬ (((parse_response
        (some ⟨none, [⟨"1", "retry", "retry the tests"⟩,
          ⟨"1", "skip", "skip the failing test"⟩]⟩)
        ⟨.ERROR, "", [], 1, 0⟩).options.map SummaryOption.key).Nodup) := by
  decide

/-- C9 amended: the selectors of the offered options are pairwise
distinct provided the keys of the parsed LLM options are themselves
pairwise distinct; validation only drops entries, and the appended stop
option's selector "9" never collides with a validated one. -/
theorem c9_selectors_distinct_if_parsed_distinct
    (d : ParsedData) (e : DetectedEvent)
    (hnd : (d.options.map RawOption.key).Nodup) :
    ((parse_response (some d) e).options.map SummaryOption.key).Nodup := by
  have hv : ((validated_options d.options).map SummaryOption.key).Nodup :=
    (validated_options_keys_sublist d.options).nodup hnd
  show ((build_options d.options).map SummaryOption.key).Nodup
  by_cases h9 : (validated_options d.options).any (fun o => o.key == "9")
  · simpa [build_options, h9] using hv
  · have h9' : "9" ∉ (validated_options d.options).map SummaryOption.key := by
      intro hmem
      rcases List.mem_map.mp hmem with ⟨o, ho, hk⟩
      exact absurd (List.any_eq_true.mpr ⟨o, ho, by simp [hk]⟩) h9
    simp only [build_options, h9, Bool.false_eq_true, if_false,
      List.map_append, List.map_cons, List.map_nil]
    rw [List.nodup_append]
    exact ⟨hv, List.nodup_singleton _, by
      intro a ha hb
      simp only [List.mem_singleton] at hb
      exact h9' (hb ▸ ha)⟩

/-- Witness for C9 amended: parsed options with distinct keys "1" and "2"
yield offered selectors ["1", "2", "9"], pairwise distinct. -/
theorem c9_selectors_distinct_if_parsed_distinct_witness :
    (([⟨"1", "retry", "retry the tests"⟩,
        ⟨"2", "skip", "skip it"⟩] : List RawOption).map
      RawOption.key).Nodup ∧
    ((parse_response (some ⟨none, [⟨"1", "retry", "retry the tests"⟩,
        ⟨"2", "skip", "skip it"⟩]⟩)
      ⟨.ERROR, "", [], 1, 0⟩).options.map SummaryOption.key).Nodup :=
  ⟨by decide, c9_selectors_distinct_if_parsed_distinct
    ⟨none, [⟨"1", "retry", "retry the tests"⟩, ⟨"2", "skip", "skip it"⟩]⟩
    ⟨.ERROR, "", [], 1, 0⟩ (by decide)⟩

/-- C10 counterexample: if the parsed LLM options already contain a key
"9" entry whose instruction does not stop the session, no stop option is
offered — the selector "9" is taken by a non-stop instruction and the
canonical stop option is not appended. -/
theorem c10_counterexample_nine_not_stop :
    ¬ (∃ opt ∈ (parse_response
        (some ⟨none, [⟨"9", "deploy", "continue the deploy"⟩]⟩)
        ⟨.ERROR, "", [], 1, 0⟩).options,
        opt.key = "9" ∧ opt.instruction ∈ stop_instructions) := by
  decide

/-- C10 amended: a successfully parsed response always offers an option
with selector "9"; when no validated parsed option already uses selector
"9", that option is the canonical stop instruction; and the no-LLM basic
fallback always offers selector "9" with a stop instruction. -/
theorem c10_stop_selector_offered
    (d d2 : ParsedData) (e e2 e3 : DetectedEvent)
    (h9 : (validated_options d.options).all (fun o => !(o.key == "9"))
      = true) :
    (parse_response (some d) e).options.any (fun o => o.key == "9"
      && stop_instructions.contains o.instruction) = true ∧
    (parse_response (some d2) e2).options.any (fun o => o.key == "9")
      = true ∧
    (basic_summary e3).options.any (fun o => o.key == "9"
      && stop_instructions.contains o.instruction) = true := by
  refine ⟨?_, ?_, by rfl⟩
  · have h9' : (validated_options d.options).any (fun o => o.key == "9")
        = false := by
      rw [List.any_eq_false]
      intro o ho
      have := List.all_eq_true.mp h9 o ho
      simpa using this
    simp only [parse_response, build_options, h9', Bool.false_eq_true,
      if_false, List.any_append]
    simp [stop_instructions]
  · by_cases h9'' : (validated_options d2.options).any (fun o => o.key == "9")
    · simp [parse_response, build_options, h9'']
    · simp [parse_response, build_options, h9'']

/-- Witness for C10 amended: an empty parsed options list (no "9" among
validated options) yields the canonical stop option with selector "9",
and the basic fallback offers its stop option. -/
theorem c10_stop_selector_offered_witness :
    (validated_options ([] : List RawOption)).all (fun o => !(o.key == "9"))
      = true ∧
    (parse_response (some ⟨none, []⟩) ⟨.ERROR, "", [], 1, 0⟩).options.any
      (fun o => o.key == "9" && stop_instructions.contains o.instruction)
      = true ∧
    (parse_response (some ⟨none, []⟩) ⟨.ERROR, "", [], 1, 0⟩).options.any
      (fun o => o.key == "9") = true ∧
    (basic_summary ⟨.STUCK, "", [], 4/5, 0⟩).options.any
      (fun o => o.key == "9" && stop_instructions.contains o.instruction)
      = true :=
  have h := c10_stop_selector_offered ⟨none, []⟩ ⟨none, []⟩
    ⟨.ERROR, "", [], 1, 0⟩ ⟨.ERROR, "", [], 1, 0⟩
    ⟨.STUCK, "", [], 4/5, 0⟩ (by decide)
  ⟨by decide, h.1, h.2.1, h.2.2⟩

end Tower
